import Mathlib

/-!
Verification of the zero-knowledge state-sync client:
the envelope codec and key-derivation stack of src/zk-crypto.js and the
debounced save / fallback load protocol of the state-sync module.

Modelling conventions:
- JavaScript byte arrays (Uint8Array) are lists of naturals; a list is a
  valid byte string when every entry is below 256.
- The browser primitives btoa and atob are implemented concretely
  (RFC 4648 base64); base64urlEncode and base64urlDecode follow the
  source on top of them.
- SubtleCrypto, TextEncoder/TextDecoder and JSON.stringify/JSON.parse are
  an external provider; they are modelled by the CryptoProvider structure,
  over which every definition is parametrised.  Randomness sampled by
  crypto.getRandomValues is passed in as an explicit argument.
- Fallible JavaScript code (throwing) is modelled with Option / Except.
-/

namespace ZkSync

/-! ## Bytes -/

/-- A JavaScript Uint8Array content: every entry is an 8-bit byte. -/
def ValidBytes (bs : List Nat) : Prop := ∀ b ∈ bs, b < 256

instance (bs : List Nat) : Decidable (ValidBytes bs) :=
  inferInstanceAs (Decidable (∀ b ∈ bs, b < 256))

/-! ## Base64 (the btoa / atob browser primitives, RFC 4648) -/

/-- The standard base64 alphabet used by btoa and atob. -/
def base64Alphabet : List Char :=
  "ABCDEFGHIJKLMNOPQRSTUVWXYZabcdefghijklmnopqrstuvwxyz0123456789+/".data

/-- Character for a 6-bit group. -/
def sextetChar (n : Nat) : Char := base64Alphabet.getD n 'A'

def charSextetAux : List Char → Nat → Char → Option Nat
  | [], _, _ => none
  | a :: rest, i, c => if a = c then some i else charSextetAux rest (i + 1) c

/-- Index of a character in the base64 alphabet, none when absent. -/
def charSextet (c : Char) : Option Nat := charSextetAux base64Alphabet 0 c

/-- btoa: encode a byte list as base64 characters with = padding. -/
def btoaChars : List Nat → List Char
  | [] => []
  | [b1] => [sextetChar (b1 / 4), sextetChar (b1 % 4 * 16), '=', '=']
  | [b1, b2] =>
      [sextetChar (b1 / 4), sextetChar (b1 % 4 * 16 + b2 / 16),
       sextetChar (b2 % 16 * 4), '=']
  | b1 :: b2 :: b3 :: rest =>
      sextetChar (b1 / 4) :: sextetChar (b1 % 4 * 16 + b2 / 16) ::
      sextetChar (b2 % 16 * 4 + b3 / 64) :: sextetChar (b3 % 64) :: btoaChars rest

/-- atob: decode base64 characters (with = padding) to bytes; none models the
InvalidCharacterError thrown on malformed input. -/
def atobChars : List Char → Option (List Nat)
  | [] => some []
  | c1 :: c2 :: c3 :: c4 :: rest =>
    match charSextet c1, charSextet c2 with
    | some n1, some n2 =>
      if c3 = '=' then
        if c4 = '=' ∧ rest = [] then some [n1 * 4 + n2 / 16] else none
      else
        match charSextet c3 with
        | some n3 =>
          if c4 = '=' then
            if rest = [] then some [n1 * 4 + n2 / 16, (n2 % 16 * 16 + n3 / 4)]
            else none
          else
            match charSextet c4 with
            | some n4 =>
              (atobChars rest).map
                (fun bs => (n1 * 4 + n2 / 16) :: (n2 % 16 * 16 + n3 / 4) ::
                  (n3 % 4 * 64 + n4) :: bs)
            | none => none
        | none => none
    | _, _ => none
  | _ => none

/-! ## base64url (src/zk-crypto.js lines 4-19) -/

/-- The + to - and / to _ substitution done by base64urlEncode. -/
def b64urlSubst (c : Char) : Char :=
  if c = '+' then '-' else if c = '/' then '_' else c

/-- The - to + and _ to / substitution done by base64urlDecode. -/
def b64urlUnsubst (c : Char) : Char :=
  if c = '-' then '+' else if c = '_' then '/' else c

/-- base64urlEncode: btoa, then substitute, then strip all = padding. -/
def base64urlEncode (bs : List Nat) : String :=
  String.mk (((btoaChars bs).map b64urlSubst).filter (fun c => c ≠ '='))

/-- base64urlDecode: substitute back, re-pad to a multiple of four, atob. -/
def base64urlDecode (s : String) : Option (List Nat) :=
  let t := s.data.map b64urlUnsubst
  atobChars (t ++ List.replicate ((4 - t.length % 4) % 4) '=')

/-! ## Roundtrip: base64urlDecode after base64urlEncode -/

theorem charSextet_sextetChar : ∀ n < 64, charSextet (sextetChar n) = some n := by
  decide

theorem sextetChar_ne_eq : ∀ n < 64, sextetChar n ≠ '=' := by decide

theorem subst_sextetChar : ∀ n < 64, b64urlSubst (sextetChar n) ≠ '=' := by decide

theorem subst_eqChar : b64urlSubst '=' = '=' := by decide

theorem unsubst_subst_sextetChar :
    ∀ n < 64, b64urlUnsubst (b64urlSubst (sextetChar n)) = sextetChar n := by
  decide

/-- The characters of an url-safe encoding before re-padding. -/
def b64urlEncChars (bs : List Nat) : List Char :=
  ((btoaChars bs).map b64urlSubst).filter (fun c => c ≠ '=')

/-- Re-substitution and re-padding step of base64urlDecode. -/
def b64urlDecodePrep (l : List Char) : List Char :=
  l.map b64urlUnsubst ++ List.replicate ((4 - l.length % 4) % 4) '='

theorem base64urlDecode_eq_prep (s : String) :
    base64urlDecode s = atobChars (b64urlDecodePrep s.data) := by
  simp [base64urlDecode, b64urlDecodePrep]

theorem b64urlEncChars_cons3 (b1 b2 b3 : Nat) (rest : List Nat)
    (h1 : b1 < 256) (h2 : b2 < 256) (h3 : b3 < 256) :
    b64urlEncChars (b1 :: b2 :: b3 :: rest) =
      b64urlSubst (sextetChar (b1 / 4)) ::
      b64urlSubst (sextetChar (b1 % 4 * 16 + b2 / 16)) ::
      b64urlSubst (sextetChar (b2 % 16 * 4 + b3 / 64)) ::
      b64urlSubst (sextetChar (b3 % 64)) :: b64urlEncChars rest := by
  have e1 : b1 / 4 < 64 := by omega
  have e2 : b1 % 4 * 16 + b2 / 16 < 64 := by omega
  have e3 : b2 % 16 * 4 + b3 / 64 < 64 := by omega
  have e4 : b3 % 64 < 64 := by omega
  simp [b64urlEncChars, btoaChars, List.filter_cons, subst_sextetChar _ e1,
    subst_sextetChar _ e2, subst_sextetChar _ e3, subst_sextetChar _ e4]

theorem b64urlDecodePrep_cons4 (c1 c2 c3 c4 : Char) (l : List Char) :
    b64urlDecodePrep (c1 :: c2 :: c3 :: c4 :: l) =
      b64urlUnsubst c1 :: b64urlUnsubst c2 :: b64urlUnsubst c3 ::
      b64urlUnsubst c4 :: b64urlDecodePrep l := by
  simp only [b64urlDecodePrep, List.map_cons, List.length_cons, List.cons_append]
  have : (4 - (l.length + 1 + 1 + 1 + 1) % 4) % 4 = (4 - l.length % 4) % 4 := by
    omega
  rw [this]

/-- Core roundtrip at the character-list level. -/
theorem atob_prep_enc :
    ∀ bs : List Nat, ValidBytes bs →
      atobChars (b64urlDecodePrep (b64urlEncChars bs)) = some bs
  | [], _ => by decide
  | [b1], h => by
    have h1 : b1 < 256 := h b1 (by simp)
    have e1 : b1 / 4 < 64 := by omega
    have e2 : b1 % 4 * 16 < 64 := by omega
    have k : b64urlEncChars [b1] =
        [b64urlSubst (sextetChar (b1 / 4)), b64urlSubst (sextetChar (b1 % 4 * 16))] := by
      simp [b64urlEncChars, btoaChars, List.filter_cons, subst_sextetChar _ e1,
        subst_sextetChar _ e2, subst_eqChar]
    rw [k]
    have k2 : b64urlDecodePrep
        [b64urlSubst (sextetChar (b1 / 4)), b64urlSubst (sextetChar (b1 % 4 * 16))] =
        [sextetChar (b1 / 4), sextetChar (b1 % 4 * 16), '=', '='] := by
      simp [b64urlDecodePrep, unsubst_subst_sextetChar _ e1,
        unsubst_subst_sextetChar _ e2, List.replicate]
    rw [k2, atobChars]
    simp [charSextet_sextetChar _ e1, charSextet_sextetChar _ e2]
    omega
  | [b1, b2], h => by
    have h1 : b1 < 256 := h b1 (by simp)
    have h2 : b2 < 256 := h b2 (by simp)
    have e1 : b1 / 4 < 64 := by omega
    have e2 : b1 % 4 * 16 + b2 / 16 < 64 := by omega
    have e3 : b2 % 16 * 4 < 64 := by omega
    have k : b64urlEncChars [b1, b2] =
        [b64urlSubst (sextetChar (b1 / 4)),
         b64urlSubst (sextetChar (b1 % 4 * 16 + b2 / 16)),
         b64urlSubst (sextetChar (b2 % 16 * 4))] := by
      simp [b64urlEncChars, btoaChars, List.filter_cons, subst_sextetChar _ e1,
        subst_sextetChar _ e2, subst_sextetChar _ e3, subst_eqChar]
    rw [k]
    have k2 : b64urlDecodePrep
        [b64urlSubst (sextetChar (b1 / 4)),
         b64urlSubst (sextetChar (b1 % 4 * 16 + b2 / 16)),
         b64urlSubst (sextetChar (b2 % 16 * 4))] =
        [sextetChar (b1 / 4), sextetChar (b1 % 4 * 16 + b2 / 16),
         sextetChar (b2 % 16 * 4), '='] := by
      simp [b64urlDecodePrep, unsubst_subst_sextetChar _ e1,
        unsubst_subst_sextetChar _ e2, unsubst_subst_sextetChar _ e3, List.replicate]
    rw [k2, atobChars]
    simp [charSextet_sextetChar _ e1, charSextet_sextetChar _ e2,
      charSextet_sextetChar _ e3, sextetChar_ne_eq _ e3]
    constructor
    · omega
    · omega
  | b1 :: b2 :: b3 :: rest, h => by
    have h1 : b1 < 256 := h b1 (by simp)
    have h2 : b2 < 256 := h b2 (by simp)
    have h3 : b3 < 256 := h b3 (by simp)
    have hrest : ValidBytes rest := fun b hb => h b (by simp [hb])
    have e1 : b1 / 4 < 64 := by omega
    have e2 : b1 % 4 * 16 + b2 / 16 < 64 := by omega
    have e3 : b2 % 16 * 4 + b3 / 64 < 64 := by omega
    have e4 : b3 % 64 < 64 := by omega
    have ih := atob_prep_enc rest hrest
    rw [b64urlEncChars_cons3 b1 b2 b3 rest h1 h2 h3, b64urlDecodePrep_cons4]
    rw [unsubst_subst_sextetChar _ e1, unsubst_subst_sextetChar _ e2,
      unsubst_subst_sextetChar _ e3, unsubst_subst_sextetChar _ e4]
    rw [atobChars]
    simp [charSextet_sextetChar _ e1, charSextet_sextetChar _ e2,
      charSextet_sextetChar _ e3, charSextet_sextetChar _ e4,
      sextetChar_ne_eq _ e3, sextetChar_ne_eq _ e4, ih]
    refine ⟨by omega, by omega, by omega⟩

/-- Decoding an url-safe encoding recovers the original bytes, for every
valid byte string (src/zk-crypto.js lines 4-19). -/
theorem base64url_roundtrip (bs : List Nat) (h : ValidBytes bs) :
    base64urlDecode (base64urlEncode bs) = some bs := by
  have hdata : (base64urlEncode bs).data = b64urlEncChars bs := rfl
  rw [base64urlDecode_eq_prep, hdata, atob_prep_enc bs h]

/-- base64urlEncode is injective on valid byte strings. -/
theorem base64urlEncode_injOn (a b : List Nat) (ha : ValidBytes a)
    (hb : ValidBytes b) (h : base64urlEncode a = base64urlEncode b) : a = b := by
  have ra := base64url_roundtrip a ha
  have rb := base64url_roundtrip b hb
  rw [h, rb] at ra
  exact (Option.some_injective _ ra).symm

/-! ## The external cryptographic provider

SubtleCrypto, TextEncoder/TextDecoder and JSON serialization are external
collaborators of src/zk-crypto.js.  They are deterministic algorithms;
the type parameter is the type of JSON-serializable application values. -/

structure CryptoProvider (α : Type) where
  /-- PBKDF2 stretching (importKey + deriveKey with iterations and SHA-256):
  password bytes, salt bytes, iteration count to stretched key. -/
  pbkdf2 : List Nat → List Nat → Nat → List Nat
  /-- HKDF-SHA256 expansion (deriveBits): stretched key, salt bytes,
  info bytes, bit length to output bits. -/
  hkdfExpand : List Nat → List Nat → List Nat → Int → List Nat
  /-- AES-GCM encryption: key, iv, plaintext to ciphertext with tag. -/
  aesGcmEncrypt : List Nat → List Nat → List Nat → List Nat
  /-- AES-GCM decryption: key, iv, ciphertext; none models the
  OperationError thrown on tag failure. -/
  aesGcmDecrypt : List Nat → List Nat → List Nat → Option (List Nat)
  /-- HMAC-SHA256: key, data to 32-byte tag. -/
  hmacSha256 : List Nat → List Nat → List Nat
  /-- TextEncoder().encode. -/
  utf8Encode : String → List Nat
  /-- TextDecoder().decode. -/
  utf8Decode : List Nat → String
  /-- JSON.stringify on application values. -/
  jsonStringify : α → String
  /-- JSON.parse; none models the SyntaxError thrown on bad input. -/
  jsonParse : String → Option α

variable {α : Type}

/-! ## Key derivation (src/zk-crypto.js lines 35-79) -/

/-- The derivation pipeline of HKDF on already-decoded salt bytes:
importKey of the passphrase, PBKDF2 with 100000 iterations, then
HKDF expansion with the info label and lengthBytes * 8 bits. -/
def hkdfBytes (C : CryptoProvider α) (passphrase info : String)
    (lengthBytes : Int) (salt : List Nat) : List Nat :=
  C.hkdfExpand (C.pbkdf2 (C.utf8Encode passphrase) salt 100000) salt
    (C.utf8Encode info) (lengthBytes * 8)

/-- HKDF(passphrase, info, lengthBytes, saltB64u) from src/zk-crypto.js:
decodes the salt string and runs the derivation pipeline.  The source
performs no validation of the passphrase or of the requested length; the
only failure (none) is a malformed salt string, on which base64urlDecode
throws. -/
def HKDF (C : CryptoProvider α) (passphrase info : String)
    (lengthBytes : Int) (saltB64u : String) : Option (List Nat) :=
  (base64urlDecode saltB64u).map
    (fun salt => hkdfBytes C passphrase info lengthBytes salt)

/-- deriveId(passphrase) from src/zk-crypto.js lines 84-89.  The 16-byte
salt freshly sampled by crypto.getRandomValues on every invocation is the
rngSalt argument. -/
def deriveId (C : CryptoProvider α) (passphrase : String)
    (rngSalt : List Nat) : Option String :=
  (HKDF C passphrase "id" 16 (base64urlEncode rngSalt)).map base64urlEncode

/-! ## The envelope (src/zk-crypto.js lines 94-214) -/

/-- The wire payload handed to verifyAndDecrypt.  JavaScript field access
on an arbitrary JSON object is modelled with Option: none stands for an
absent field or one of the wrong dynamic type, so the typeof checks of the
source become isSome checks.  A payload that is null or not an object
behaves like one with all fields none (both fail the same structure
check). -/
structure Payload where
  v : Option Int
  ts : Option Int
  salt : Option String
  iv : Option String
  ct : Option String
  mac : Option String
deriving DecidableEq, Repr

/-- encryptJson(obj, passphrase) from src/zk-crypto.js lines 94-142.  The
random salt (16 bytes) and iv (12 bytes) sampled by getRandomValues and
the Date.now() timestamp are explicit arguments.  none models a thrown
exception (only reachable through HKDF on an undecodable salt encoding,
which cannot happen for the encodings produced here). -/
def encryptJson (C : CryptoProvider α) (obj : α) (passphrase : String)
    (salt iv : List Nat) (now : Int) : Option Payload :=
  let saltB64u := base64urlEncode salt
  match HKDF C passphrase "enc" 32 saltB64u, HKDF C passphrase "mac" 32 saltB64u with
  | some encKey, some macKey =>
    let plaintext := C.utf8Encode (C.jsonStringify obj)
    let ct := C.aesGcmEncrypt encKey iv plaintext
    let macBytes := C.hmacSha256 macKey (salt ++ iv ++ ct)
    some
      { v := some 1
        ts := some now
        salt := some saltB64u
        iv := some (base64urlEncode iv)
        ct := some (base64urlEncode ct)
        mac := some (base64urlEncode macBytes) }
  | _, _ => none

/-- The failure modes of verifyAndDecrypt.  The source collapses them all
into a thrown Error whose message starts with the text Decryption failed;
the constructors record which internal throw produced it.  In the spec
taxonomy, invalidStructure / badEncoding / jsonParseFailed are FormatError
and hmacFailed / aeadFailed are IntegrityError. -/
inductive DecryptError
  | invalidStructure
  | badEncoding
  | hmacFailed
  | aeadFailed
  | jsonParseFailed
deriving DecidableEq, Repr

/-- verifyAndDecrypt(payload, passphrase) from src/zk-crypto.js lines
147-214: structural validation, base64url decoding of the four byte
fields, key re-derivation from the salt, HMAC verification over
salt, iv and ct, and only then AES-GCM decryption and JSON parsing. -/
def verifyAndDecrypt (C : CryptoProvider α) (payload : Payload)
    (passphrase : String) : Except DecryptError α :=
  match payload.v, payload.ts, payload.salt, payload.iv, payload.ct, payload.mac with
  | some 1, some _, some saltS, some ivS, some ctS, some macS =>
    match base64urlDecode saltS, base64urlDecode ivS,
        base64urlDecode ctS, base64urlDecode macS with
    | some salt, some iv, some ct, some mac =>
      match HKDF C passphrase "enc" 32 saltS, HKDF C passphrase "mac" 32 saltS with
      | some encKey, some macKey =>
        let macData := salt ++ iv ++ ct
        if C.hmacSha256 macKey macData = mac then
          match C.aesGcmDecrypt encKey iv ct with
          | some pt =>
            match C.jsonParse (C.utf8Decode pt) with
            | some v => Except.ok v
            | none => Except.error DecryptError.jsonParseFailed
          | none => Except.error DecryptError.aeadFailed
        else Except.error DecryptError.hmacFailed
      | _, _ => Except.error DecryptError.badEncoding
    | _, _, _, _ => Except.error DecryptError.badEncoding
  | _, _, _, _, _, _ => Except.error DecryptError.invalidStructure

/-! ## Evaluation lemmas for the codec -/

theorem HKDF_encode (C : CryptoProvider α) (p info : String) (len : Int)
    (sb : List Nat) (h : ValidBytes sb) :
    HKDF C p info len (base64urlEncode sb) = some (hkdfBytes C p info len sb) := by
  unfold HKDF
  rw [base64url_roundtrip sb h]
  rfl

/-- The ciphertext produced inside encryptJson. -/
def encCt (C : CryptoProvider α) (obj : α) (p : String)
    (salt iv : List Nat) : List Nat :=
  C.aesGcmEncrypt (hkdfBytes C p "enc" 32 salt) iv (C.utf8Encode (C.jsonStringify obj))

/-- The HMAC tag produced inside encryptJson, over salt, iv and ct. -/
def encMac (C : CryptoProvider α) (obj : α) (p : String)
    (salt iv : List Nat) : List Nat :=
  C.hmacSha256 (hkdfBytes C p "mac" 32 salt) (salt ++ iv ++ encCt C obj p salt iv)

/-- The envelope produced by encryptJson, written out field by field. -/
def encPayload (C : CryptoProvider α) (obj : α) (p : String)
    (salt iv : List Nat) (now : Int) : Payload :=
  { v := some 1
    ts := some now
    salt := some (base64urlEncode salt)
    iv := some (base64urlEncode iv)
    ct := some (base64urlEncode (encCt C obj p salt iv))
    mac := some (base64urlEncode (encMac C obj p salt iv)) }

theorem encryptJson_eq (C : CryptoProvider α) (obj : α) (p : String)
    (salt iv : List Nat) (now : Int) (hsalt : ValidBytes salt) :
    encryptJson C obj p salt iv now = some (encPayload C obj p salt iv now) := by
  simp only [encryptJson, HKDF_encode C p "enc" 32 salt hsalt,
    HKDF_encode C p "mac" 32 salt hsalt]
  rfl

/-- Replacing the timestamp of an encryption result is an encryption
result with the other timestamp. -/
theorem encPayload_set_ts (C : CryptoProvider α) (obj : α) (p : String)
    (salt iv : List Nat) (now t : Int) :
    { encPayload C obj p salt iv now with ts := some t } =
      encPayload C obj p salt iv t := rfl

/-- Core roundtrip of the envelope codec: verifyAndDecrypt accepts any
envelope whose non-timestamp fields were produced by encryptJson under the
same passphrase, and returns the original value.  The hypotheses are the
correctness facts of the external provider at the instances used:
AES-GCM decryption inverts encryption, text decoding inverts encoding,
JSON parsing inverts serialization, and the provider emits 8-bit bytes. -/
theorem verify_encPayload (C : CryptoProvider α) (obj : α) (p : String)
    (salt iv : List Nat) (t : Int)
    (hsalt : ValidBytes salt) (hiv : ValidBytes iv)
    (hct : ValidBytes (encCt C obj p salt iv))
    (hmacv : ValidBytes (encMac C obj p salt iv))
    (haes : C.aesGcmDecrypt (hkdfBytes C p "enc" 32 salt) iv (encCt C obj p salt iv)
      = some (C.utf8Encode (C.jsonStringify obj)))
    (hutf8 : C.utf8Decode (C.utf8Encode (C.jsonStringify obj)) = C.jsonStringify obj)
    (hjson : C.jsonParse (C.jsonStringify obj) = some obj) :
    verifyAndDecrypt C (encPayload C obj p salt iv t) p = Except.ok obj := by
  unfold verifyAndDecrypt encPayload
  simp only
  rw [base64url_roundtrip salt hsalt, base64url_roundtrip iv hiv,
    base64url_roundtrip _ hct, base64url_roundtrip _ hmacv,
    HKDF_encode C p "enc" 32 salt hsalt, HKDF_encode C p "mac" 32 salt hsalt]
  simp [haes, hutf8, hjson,
    show C.hmacSha256 (hkdfBytes C p "mac" 32 salt)
      (salt ++ iv ++ encCt C obj p salt iv) = encMac C obj p salt iv from rfl]
  simp [encMac, List.append_assoc]

/-! ## A concrete provider instance used to witness the theorems

A deliberately trivial instance of the provider interface: it satisfies
the same functional-correctness contracts as the real primitives
(decryption inverts encryption, decoding inverts encoding) on the inputs
the witnesses use, which is all the theorems assume. -/

def toyProvider : CryptoProvider Bool where
  pbkdf2 := fun _pw salt _iters => salt
  hkdfExpand := fun key _salt _info _len => key.map (fun b => b % 256)
  aesGcmEncrypt := fun _key _iv pt => pt
  aesGcmDecrypt := fun _key _iv ct => some ct
  hmacSha256 := fun key data => (key ++ data).map (fun b => b % 256)
  utf8Encode := fun s => s.data.map Char.toNat
  utf8Decode := fun bs => String.mk (bs.map Char.ofNat)
  jsonStringify := fun b => if b then "true" else "false"
  jsonParse := fun s =>
    if s = "true" then some true else if s = "false" then some false else none

/-- A sample 16-byte random salt. -/
def salt16 : List Nat := [0, 1, 2, 3, 4, 5, 6, 7, 8, 9, 10, 11, 12, 13, 14, 15]

/-- A second, distinct sample 16-byte random salt. -/
def salt16b : List Nat := List.replicate 16 255

/-- A sample 12-byte random iv. -/
def iv12 : List Nat := [20, 21, 22, 23, 24, 25, 26, 27, 28, 29, 30, 31]

theorem toy_hkdfBytes (p info : String) (len : Int) (b : List Nat) :
    hkdfBytes toyProvider p info len b = b.map (fun x => x % 256) := rfl

theorem map_mod256_self (b : List Nat) (h : ValidBytes b) :
    b.map (fun x => x % 256) = b := by
  induction b with
  | nil => rfl
  | cons x xs ih =>
    have hx : x < 256 := h x (by simp)
    have hxs : ValidBytes xs := fun y hy => h y (by simp [hy])
    simp [Nat.mod_eq_of_lt hx, ih hxs]

/-! ## Claim C1 -/

/-- C1: for every JSON-serializable value v and passphrase p, decrypting
the envelope produced by encryptJson(v, p) with the same passphrase p
returns v.  The randomness (salt, iv) and timestamp are explicit; the
hypotheses are the correctness contracts of the external cryptographic
provider at the instances used (AES-GCM decrypt inverts encrypt, UTF-8
decode inverts encode, JSON parse inverts stringify, provider outputs are
8-bit bytes). -/
theorem encrypt_decrypt_roundtrip (C : CryptoProvider α) (v : α) (p : String)
    (salt iv : List Nat) (now : Int)
    (hsalt : ValidBytes salt) (hiv : ValidBytes iv)
    (hct : ValidBytes (encCt C v p salt iv))
    (hmacv : ValidBytes (encMac C v p salt iv))
    (haes : C.aesGcmDecrypt (hkdfBytes C p "enc" 32 salt) iv (encCt C v p salt iv)
      = some (C.utf8Encode (C.jsonStringify v)))
    (hutf8 : C.utf8Decode (C.utf8Encode (C.jsonStringify v)) = C.jsonStringify v)
    (hjson : C.jsonParse (C.jsonStringify v) = some v) :
    ∃ env, encryptJson C v p salt iv now = some env ∧
      verifyAndDecrypt C env p = Except.ok v :=
  ⟨encPayload C v p salt iv now,
    encryptJson_eq C v p salt iv now hsalt,
    verify_encPayload C v p salt iv now hsalt hiv hct hmacv haes hutf8 hjson⟩

/-- Witness for C1 at a concrete input. -/
theorem encrypt_decrypt_roundtrip_witness :
    ∃ env, encryptJson toyProvider true "pw" salt16 iv12 7 = some env ∧
      verifyAndDecrypt toyProvider env "pw" = Except.ok true :=
  encrypt_decrypt_roundtrip toyProvider true "pw" salt16 iv12 7
    (by decide) (by decide) (by decide) (by decide) (by decide) (by decide)
    (by decide)

/-! ## Claim C10 -/

/-- C10: the ts field of an envelope is covered neither by the MAC
(computed over salt, iv and ct only) nor by the AEAD: replacing the ts of
an envelope produced by encryptJson with any other number still decrypts
successfully to the original value under the same passphrase. -/
theorem ts_not_authenticated (C : CryptoProvider α) (v : α) (p : String)
    (salt iv : List Nat) (now : Int)
    (hsalt : ValidBytes salt) (hiv : ValidBytes iv)
    (hct : ValidBytes (encCt C v p salt iv))
    (hmacv : ValidBytes (encMac C v p salt iv))
    (haes : C.aesGcmDecrypt (hkdfBytes C p "enc" 32 salt) iv (encCt C v p salt iv)
      = some (C.utf8Encode (C.jsonStringify v)))
    (hutf8 : C.utf8Decode (C.utf8Encode (C.jsonStringify v)) = C.jsonStringify v)
    (hjson : C.jsonParse (C.jsonStringify v) = some v) :
    ∀ env, encryptJson C v p salt iv now = some env →
      ∀ tNew : Int,
        verifyAndDecrypt C { env with ts := some tNew } p = Except.ok v := by
  intro env henv tNew
  rw [encryptJson_eq C v p salt iv now hsalt] at henv
  cases henv
  rw [encPayload_set_ts]
  exact verify_encPayload C v p salt iv tNew hsalt hiv hct hmacv haes hutf8 hjson

/-- Witness for C10 at a concrete input and altered timestamp. -/
theorem ts_not_authenticated_witness :
    ∃ env, encryptJson toyProvider true "pw" salt16b iv12 7 = some env ∧
      verifyAndDecrypt toyProvider { env with ts := some 424242 } "pw"
        = Except.ok true := by
  refine ⟨encPayload toyProvider true "pw" salt16b iv12 7,
    encryptJson_eq toyProvider true "pw" salt16b iv12 7 (by decide), ?_⟩
  exact ts_not_authenticated toyProvider true "pw" salt16b iv12 7
    (by decide) (by decide) (by decide) (by decide) (by decide) (by decide)
    (by decide) (encPayload toyProvider true "pw" salt16b iv12 7)
    (encryptJson_eq toyProvider true "pw" salt16b iv12 7 (by decide)) 424242

/-! ## Claim C9 -/

/-- C9: every payload whose v field is not the integer 1 is rejected by
verifyAndDecrypt with the structure error (the FormatError of the spec
taxonomy), regardless of the validity of the remaining fields: the
structural check is the first thing the function does. -/
theorem version_mismatch_rejected (C : CryptoProvider α) (pl : Payload)
    (p : String) (h : pl.v ≠ some 1) :
    verifyAndDecrypt C pl p = Except.error DecryptError.invalidStructure := by
  rcases pl with ⟨v, ts, s, i, c, m⟩
  simp only [verifyAndDecrypt]
  split
  · simp_all
  · rfl

/-- Witness for C9: a payload with v equal to 2 and all other fields
well-formed is rejected. -/
theorem version_mismatch_rejected_witness :
    verifyAndDecrypt toyProvider
      { v := some 2, ts := some 7, salt := some (base64urlEncode salt16),
        iv := some (base64urlEncode iv12), ct := some "AA", mac := some "AA" }
      "pw" = Except.error DecryptError.invalidStructure :=
  version_mismatch_rejected toyProvider _ "pw" (by decide)

/-! ## Claim C6 -/

/-- C6: verifyAndDecrypt recomputes the MAC over salt, iv and ct and
checks it before any AEAD decryption: on a structurally valid payload
whose recomputed MAC differs from the stored mac field, it fails with the
HMAC error (the IntegrityError of the spec taxonomy), and it does so for
every possible AEAD decryption function: AES-GCM decryption is never
attempted (fail closed). -/
theorem mac_mismatch_fails_closed (C : CryptoProvider α) (pl : Payload)
    (p : String) (tsv : Int) (saltS ivS ctS macS : String)
    (salt iv ct mac : List Nat)
    (hv : pl.v = some 1) (hts : pl.ts = some tsv) (hss : pl.salt = some saltS)
    (his : pl.iv = some ivS) (hcs : pl.ct = some ctS) (hms : pl.mac = some macS)
    (hds : base64urlDecode saltS = some salt)
    (hdi : base64urlDecode ivS = some iv)
    (hdc : base64urlDecode ctS = some ct)
    (hdm : base64urlDecode macS = some mac)
    (hmm : C.hmacSha256 (hkdfBytes C p "mac" 32 salt) (salt ++ iv ++ ct) ≠ mac) :
    verifyAndDecrypt C pl p = Except.error DecryptError.hmacFailed ∧
      ∀ d, verifyAndDecrypt { C with aesGcmDecrypt := d } pl p
        = Except.error DecryptError.hmacFailed := by
  have main : ∀ d, verifyAndDecrypt { C with aesGcmDecrypt := d } pl p
      = Except.error DecryptError.hmacFailed := by
    intro d
    simp only [verifyAndDecrypt, hv, hts, hss, his, hcs, hms, HKDF,
      hds, hdi, hdc, hdm, Option.map_some', hkdfBytes]
    rw [if_neg]
    intro hEq
    exact hmm hEq
  exact ⟨main C.aesGcmDecrypt, main⟩

/-- Witness for C6: a structurally valid payload with a one-byte mac that
cannot equal the recomputed 33-byte HMAC is rejected with the HMAC error,
whatever AEAD decryption would have done. -/
theorem mac_mismatch_fails_closed_witness :
    verifyAndDecrypt toyProvider
      { v := some 1, ts := some 7, salt := some (base64urlEncode salt16),
        iv := some "AA", ct := some "AA", mac := some "AA" }
      "pw" = Except.error DecryptError.hmacFailed ∧
    ∀ d, verifyAndDecrypt { toyProvider with aesGcmDecrypt := d }
      { v := some 1, ts := some 7, salt := some (base64urlEncode salt16),
        iv := some "AA", ct := some "AA", mac := some "AA" }
      "pw" = Except.error DecryptError.hmacFailed :=
  mac_mismatch_fails_closed toyProvider _ "pw" 7
    (base64urlEncode salt16) "AA" "AA" "AA" salt16 [0] [0] [0]
    rfl rfl rfl rfl rfl rfl (by decide) (by decide) (by decide) (by decide)
    (by decide)

/-! ## Claim C7 -/

/-- C7 (amended): the HKDF of src/zk-crypto.js performs no validation of
its inputs: it succeeds exactly when the salt string decodes, regardless
of the passphrase (empty or not) and of the requested length (including
zero and negative).  It is a pure function of its arguments, hence
deterministic given identical inputs. -/
theorem HKDF_no_input_validation (C : CryptoProvider α) (p info : String)
    (len : Int) (saltB64u : String) :
    (HKDF C p info len saltB64u).isSome = (base64urlDecode saltB64u).isSome := by
  simp [HKDF]

/-- Counterexample to C7 as stated: HKDF succeeds on an empty passphrase
and on non-positive requested lengths; no DerivationError exists in the
code and no emptiness or positivity check is performed. -/
theorem HKDF_accepts_empty_and_nonpositive :
    (HKDF toyProvider "" "id" 16 (base64urlEncode salt16)).isSome = true ∧
    (HKDF toyProvider "secret" "id" 0 (base64urlEncode salt16)).isSome = true ∧
    (HKDF toyProvider "" "id" (-5) (base64urlEncode salt16)).isSome = true := by
  decide

/-! ## Claim C2 -/

/-- C2: deriveId consumes a freshly sampled random salt on every
invocation, and its output depends injectively on that salt (given that
the underlying derivation pipeline is collision-free in the salt, the
standard assumption for HKDF): two calls with one passphrase but distinct
sampled salts produce distinct identifiers, so deriveId is not
deterministic in the passphrase alone. -/
theorem deriveId_unstable (C : CryptoProvider α) (p : String)
    (s1 s2 : List Nat) (h1 : ValidBytes s1) (h2 : ValidBytes s2)
    (hne : s1 ≠ s2)
    (hinj : ∀ b1 b2, ValidBytes b1 → ValidBytes b2 →
      hkdfBytes C p "id" 16 b1 = hkdfBytes C p "id" 16 b2 → b1 = b2)
    (hval : ∀ b, ValidBytes b → ValidBytes (hkdfBytes C p "id" 16 b)) :
    deriveId C p s1 ≠ deriveId C p s2 := by
  have e1 : deriveId C p s1
      = some (base64urlEncode (hkdfBytes C p "id" 16 s1)) := by
    simp [deriveId, HKDF_encode C p "id" 16 s1 h1]
  have e2 : deriveId C p s2
      = some (base64urlEncode (hkdfBytes C p "id" 16 s2)) := by
    simp [deriveId, HKDF_encode C p "id" 16 s2 h2]
  rw [e1, e2]
  intro h
  have hOut := Option.some_injective _ h
  have hBytes := base64urlEncode_injOn _ _ (hval s1 h1) (hval s2 h2) hOut
  exact hne (hinj s1 s2 h1 h2 hBytes)

/-- Witness for C2: two concrete distinct sampled salts yield distinct
identifiers for one passphrase. -/
theorem deriveId_unstable_witness :
    deriveId toyProvider "pw" salt16 ≠ deriveId toyProvider "pw" salt16b :=
  deriveId_unstable toyProvider "pw" salt16 salt16b (by decide) (by decide)
    (by decide)
    (fun b1 b2 hv1 hv2 heq => by
      rw [toy_hkdfBytes, toy_hkdfBytes, map_mod256_self b1 hv1,
        map_mod256_self b2 hv2] at heq
      exact heq)
    (fun b hv => by
      rw [toy_hkdfBytes, map_mod256_self b hv]
      exact hv)

/-! ## The sync client (state-sync module)

The debounce registry of the source is a process-wide Map from derived id
to an armed timer.  A timer is modelled as an entry recording the id it
was registered under, the captured passphrase and payload closure, and
whether clearTimeout was called on it.  Timers fire in arming order once
the debounce delay elapses with no further calls. -/

structure TimerEntry (α : Type) where
  id : String
  passphrase : String
  payload : α
  cancelled : Bool
deriving DecidableEq, Repr

/-- saveState(passphrase, stateObj) from the state-sync module (lines
80-101): derive an id from the passphrase (with a fresh random salt,
passed explicitly), clear any existing timer registered under that id,
and arm a new timer capturing the passphrase and payload.  A deriveId
failure would reject the returned promise before any timer is touched,
leaving the registry unchanged. -/
def saveState (C : CryptoProvider α) (timers : List (TimerEntry α))
    (p : String) (stateObj : α) (rngSalt : List Nat) : List (TimerEntry α) :=
  match deriveId C p rngSalt with
  | none => timers
  | some id =>
    (timers.map fun t => if t.id = id then { t with cancelled := true } else t)
      ++ [{ id := id, passphrase := p, payload := stateObj, cancelled := false }]

/-- The saveStateInternal (performSave) executions that occur once every
armed, uncancelled timer has fired: the captured passphrase and payload
of each, in arming order. -/
def firedSaves (timers : List (TimerEntry α)) : List (String × α) :=
  (timers.filter fun t => !t.cancelled).map fun t => (t.passphrase, t.payload)

/-! ## Claim C3 -/

/-- C3, evaluated at the failing input: two saveState calls with the same
passphrase but (as on every real run) distinct freshly sampled salts
derive distinct ids, so the second call cancels nothing and BOTH timers
fire: performSave executes twice, first with the first payload and then
with the second, contradicting the claimed exactly-one execution with the
second payload.  Debouncing only occurs in the measure-zero event that
the two sampled salts collide. -/
theorem saveState_double_fire :
    firedSaves
      (saveState toyProvider
        (saveState toyProvider ([] : List (TimerEntry Bool)) "p" false salt16)
        "p" true salt16b)
      = [("p", false), ("p", true)] ∧
    firedSaves
      (saveState toyProvider
        (saveState toyProvider ([] : List (TimerEntry Bool)) "p" false salt16)
        "p" true salt16b)
      ≠ [("p", true)] := by
  decide

/-! ## Fallible HTTP world for loadState -/

/-- Outcome of one fetch: netFail models a rejected fetch promise; resp
carries the HTTP status and the result of response.json(), whose failure
(Except.error) models a body that is not valid JSON. -/
inductive FetchOutcome (β : Type) where
  | netFail
  | resp (status : Nat) (body : Except Unit β)

/-- The remote store as seen by one loadState call, already keyed by this
identity: the latest-pointer endpoint (its JSON shape collapses to the
numeric ts field when present), the per-version endpoint, and the list
endpoint (none models a JSON body that is not an array; a list entry is
some ts when the element is an object with numeric ts, else none). -/
structure World (α : Type) where
  latest : FetchOutcome (Option Int)
  version : Int → FetchOutcome Payload
  list : FetchOutcome (Option (List (Option Int)))

/-- response.ok: status in the 2xx range. -/
def statusOk (s : Nat) : Bool := decide (200 ≤ s) && decide (s < 300)

inductive LoadError where
  | network
  | integrity
deriving DecidableEq, Repr

/-- The result contract of loadState: state is null or the decrypted
value; error is null, network or integrity. -/
structure SyncOutcome (α : Type) where
  state : Option α
  error : Option LoadError
deriving DecidableEq, Repr

/-- Insert into a descending-sorted list (stable for equal keys). -/
def insertDesc (x : Int) : List Int → List Int
  | [] => [x]
  | y :: ys => if x > y then x :: y :: ys else y :: insertDesc x ys

/-- The sort((a, b) => b.ts - a.ts) of the list fallback: reverse
chronological order, newest first. -/
def sortDesc : List Int → List Int
  | [] => []
  | x :: xs => insertDesc x (sortDesc xs)

/-- The for-loop of the list fallback (state-sync lines 181-199): try each
descriptor in order.  A response that is ok is parsed and decrypted; a
decryption failure (whose message matches the Decryption failed pattern)
continues with the next descriptor; a json() failure or a rejected fetch
returns the network outcome.  A response that is NOT ok is skipped
silently, whatever its status: the loop body has no status check.
Exhausting the loop yields the integrity outcome (line 202). -/
def scanVersions (C : CryptoProvider α) (p : String) (w : World α) :
    List Int → SyncOutcome α
  | [] => { state := none, error := some LoadError.integrity }
  | ts :: rest =>
    match w.version ts with
    | FetchOutcome.netFail => { state := none, error := some LoadError.network }
    | FetchOutcome.resp s body =>
      if statusOk s then
        match body with
        | Except.error _ => { state := none, error := some LoadError.network }
        | Except.ok payload =>
          match verifyAndDecrypt C payload p with
          | Except.ok v => { state := some v, error := none }
          | Except.error _ => scanVersions C p w rest
      else scanVersions C p w rest

/-- The list-fallback step of loadState (state-sync lines 162-207):
fetch the version list; a non-ok status, json() failure or rejected fetch
is a network outcome; a body that is not an array or is the empty array
means no state exists yet (no error); otherwise filter out entries
without a numeric ts, sort descending and scan. -/
def listFallback (C : CryptoProvider α) (p : String) (w : World α) :
    SyncOutcome α :=
  match w.list with
  | FetchOutcome.netFail => { state := none, error := some LoadError.network }
  | FetchOutcome.resp s body =>
    if statusOk s then
      match body with
      | Except.error _ => { state := none, error := some LoadError.network }
      | Except.ok none => { state := none, error := none }
      | Except.ok (some versions) =>
        if versions = [] then { state := none, error := none }
        else scanVersions C p w (sortDesc (versions.filterMap id))
    else { state := none, error := some LoadError.network }

/-- Step 2 of loadState (lines 138-160): fetch the version named by the
latest pointer.  ok: decrypt; success returns the state, any
verifyAndDecrypt failure (its message always matches the Decryption
failed pattern) falls through to the list fallback.  404: stale pointer,
fall through.  Other statuses, json() failure or rejected fetch: network
outcome. -/
def loadFromTs (C : CryptoProvider α) (p : String) (w : World α)
    (ts : Int) : SyncOutcome α :=
  match w.version ts with
  | FetchOutcome.netFail => { state := none, error := some LoadError.network }
  | FetchOutcome.resp s body =>
    if statusOk s then
      match body with
      | Except.error _ => { state := none, error := some LoadError.network }
      | Except.ok payload =>
        match verifyAndDecrypt C payload p with
        | Except.ok v => { state := some v, error := none }
        | Except.error _ => listFallback C p w
    else if s = 404 then listFallback C p w
    else { state := none, error := some LoadError.network }

/-- loadState(passphrase) from the state-sync module (lines 106-213).
The rngSalt is the randomness consumed by the deriveId call (whose result
only selects the URLs, which the World already fixes); a deriveId failure
would be caught by the outer catch and become a network outcome.  Step 1
fetches the latest pointer: ok with a numeric ts proceeds to that
version; ok without a numeric ts leaves the pointer null and goes to the
list fallback; 404 goes to the list fallback; anything else is a network
outcome. -/
def loadState (C : CryptoProvider α) (p : String) (rngSalt : List Nat)
    (w : World α) : SyncOutcome α :=
  match deriveId C p rngSalt with
  | none => { state := none, error := some LoadError.network }
  | some _ =>
    match w.latest with
    | FetchOutcome.netFail => { state := none, error := some LoadError.network }
    | FetchOutcome.resp s body =>
      if statusOk s then
        match body with
        | Except.error _ => { state := none, error := some LoadError.network }
        | Except.ok (some ts) => loadFromTs C p w ts
        | Except.ok none => listFallback C p w
      else if s = 404 then listFallback C p w
      else { state := none, error := some LoadError.network }

/-! ## Claim C8 -/

theorem scan_state_or_error (C : CryptoProvider α) (p : String) (w : World α) :
    ∀ l, (scanVersions C p w l).state = none ∨ (scanVersions C p w l).error = none := by
  intro l
  induction l with
  | nil => exact Or.inl rfl
  | cons ts rest ih =>
    simp only [scanVersions]
    split
    · exact Or.inl rfl
    · split
      · split
        · exact Or.inl rfl
        · split
          · exact Or.inr rfl
          · exact ih
      · exact ih

theorem listFallback_state_or_error (C : CryptoProvider α) (p : String)
    (w : World α) :
    (listFallback C p w).state = none ∨ (listFallback C p w).error = none := by
  simp only [listFallback]
  split
  · exact Or.inl rfl
  · split
    · split
      · exact Or.inl rfl
      · exact Or.inl rfl
      · split
        · exact Or.inl rfl
        · exact scan_state_or_error C p w _
    · exact Or.inl rfl

theorem loadFromTs_state_or_error (C : CryptoProvider α) (p : String)
    (w : World α) (ts : Int) :
    (loadFromTs C p w ts).state = none ∨ (loadFromTs C p w ts).error = none := by
  simp only [loadFromTs]
  split
  · exact Or.inl rfl
  · split
    · split
      · exact Or.inl rfl
      · split
        · exact Or.inr rfl
        · exact listFallback_state_or_error C p w
    · split
      · exact listFallback_state_or_error C p w
      · exact Or.inl rfl

/-- C8: for every passphrase and every behaviour of the remote store,
loadState resolves to a SyncOutcome (the Lean model is a total function,
matching the outer catch that swallows every exception) whose error field
is, by its type, one of none, network or integrity; and in every error
case the state is absent.  Equivalently: the outcome never carries both a
state and an error. -/
theorem load_never_raises (C : CryptoProvider α) (p : String)
    (rngSalt : List Nat) (w : World α) :
    (loadState C p rngSalt w).state = none ∨
      (loadState C p rngSalt w).error = none := by
  simp only [loadState]
  split
  · exact Or.inl rfl
  · split
    · exact Or.inl rfl
    · split
      · split
        · exact Or.inl rfl
        · exact loadFromTs_state_or_error C p w _
        · exact listFallback_state_or_error C p w
      · split
        · exact listFallback_state_or_error C p w
        · exact Or.inl rfl

/-! ## Claim C4 -/

/-- A world whose only stored version descriptor answers with HTTP 500:
pointer missing (404), list holds one descriptor with ts 5, and the
per-version GET returns status 500. -/
def worldStatus500 : World Bool :=
  { latest := FetchOutcome.resp 404 (Except.error ())
    version := fun _ => FetchOutcome.resp 500 (Except.error ())
    list := FetchOutcome.resp 200 (Except.ok (some [some 5])) }

/-- Counterexample to C4 as stated: in the list-fallback scan a
per-version GET answering 500 (non-2xx, not 404) does NOT abort the loop
with the network outcome; the loop body has no status check, the
descriptor is silently skipped, and the exhausted loop reports
integrity. -/
theorem scan_500_skipped_not_network :
    loadState toyProvider "p" salt16 worldStatus500
        = { state := none, error := some LoadError.integrity } ∧
      loadState toyProvider "p" salt16 worldStatus500
        ≠ { state := none, error := some LoadError.network } ∧
      worldStatus500.version 5 = FetchOutcome.resp 500 (Except.error ()) := by
  refine ⟨by decide, by decide, rfl⟩

/-- C4 (amended): in the list-fallback scan, every per-version response
with a non-2xx status — 404 or any other — skips to the next descriptor;
the loop aborts with the network outcome exactly for a rejected fetch or
a response body that fails to parse. -/
theorem scan_skip_and_abort (C : CryptoProvider α) (p : String) (w : World α)
    (ts : Int) (rest : List Int) :
    (∀ s body, w.version ts = FetchOutcome.resp s body → statusOk s = false →
      scanVersions C p w (ts :: rest) = scanVersions C p w rest) ∧
    (w.version ts = FetchOutcome.netFail →
      scanVersions C p w (ts :: rest)
        = { state := none, error := some LoadError.network }) ∧
    (∀ s e, w.version ts = FetchOutcome.resp s (Except.error e) →
      statusOk s = true →
      scanVersions C p w (ts :: rest)
        = { state := none, error := some LoadError.network }) := by
  refine ⟨?_, ?_, ?_⟩
  · intro s body hw hs
    simp only [scanVersions, hw, hs]
    simp
  · intro hw
    simp only [scanVersions, hw]
  · intro s e hw hs
    simp only [scanVersions, hw, hs]
    simp

/-- Witness for the amended C4 at a concrete non-2xx status. -/
theorem scan_skip_and_abort_witness :
    statusOk 500 = false ∧
      scanVersions toyProvider "p" worldStatus500 [5]
        = scanVersions toyProvider "p" worldStatus500 [] :=
  ⟨by decide,
    (scan_skip_and_abort toyProvider "p" worldStatus500 5 []).1 500
      (Except.error ()) rfl (by decide)⟩

/-! ## Claim C5 -/

/-- A payload that is structurally valid but fails HMAC verification
under the toy provider and passphrase p. -/
def badMacPayload : Payload :=
  { v := some 1, ts := some 0, salt := some "AA", iv := some "AA",
    ct := some "AA", mac := some "AA" }

/-- A world with two descriptors: ts 9 answers HTTP 500 (a failure that
is not a decrypt failure), ts 5 answers 200 with a payload failing
decryption. -/
def worldMixedFailures : World Bool :=
  { latest := FetchOutcome.resp 404 (Except.error ())
    version := fun ts =>
      if ts = 9 then FetchOutcome.resp 500 (Except.error ())
      else FetchOutcome.resp 200 (Except.ok badMacPayload)
    list := FetchOutcome.resp 200 (Except.ok (some [some 5, some 9])) }

/-- Counterexample to C5 as stated: loadState returns the integrity
outcome although not every per-descriptor failure was a decrypt failure —
descriptor 9 failed with a 500 status (which the claim says must abort
the scan as a network error instead). -/
theorem integrity_despite_non_decrypt_failure :
    loadState toyProvider "p" salt16 worldMixedFailures
        = { state := none, error := some LoadError.integrity } ∧
      worldMixedFailures.version 9 = FetchOutcome.resp 500 (Except.error ()) ∧
      statusOk 500 = false := by
  refine ⟨by decide, rfl, by decide⟩

/-- One descriptor of the scan is passed over without producing a result:
its GET returned a response (it did not reject), and either the status is
not ok (any non-2xx, not only 404), or the body parsed to a payload that
failed decryption.  A rejected fetch or an unparseable 2xx body is NOT a
skip: it aborts the scan. -/
def DescriptorSkipped (C : CryptoProvider α) (p : String) (w : World α)
    (ts : Int) : Prop :=
  ∃ s body, w.version ts = FetchOutcome.resp s body ∧
    (statusOk s = false ∨
      ∃ payload e, body = Except.ok payload ∧
        verifyAndDecrypt C payload p = Except.error e)

/-- C5 (amended): the list-fallback scan ends in the integrity outcome
precisely when every scanned descriptor was skipped, where a skip is
either any non-2xx response (404 or otherwise) or a fetched body that
failed decryption; rejected fetches and unparseable bodies abort the scan
with the network outcome, and a successful decrypt ends it with the
state. -/
theorem scan_integrity_iff (C : CryptoProvider α) (p : String) (w : World α) :
    ∀ l, scanVersions C p w l
        = { state := none, error := some LoadError.integrity }
      ↔ ∀ ts ∈ l, DescriptorSkipped C p w ts := by
  intro l
  induction l with
  | nil => simp [scanVersions]
  | cons ts rest ih =>
    simp only [scanVersions, List.mem_cons]
    split
    · rename_i hw
      constructor
      · intro h
        exact absurd h (by simp)
      · intro h
        obtain ⟨s, body, heq, -⟩ := h ts (Or.inl rfl)
        rw [hw] at heq
        cases heq
    · rename_i s body hw
      split
      · rename_i hs
        split
        · constructor
          · intro h
            exact absurd h (by simp)
          · intro h
            obtain ⟨s', body', heq, hrest⟩ := h ts (Or.inl rfl)
            rw [hw] at heq
            cases heq
            rcases hrest with hbad | ⟨payload, e', hpe, -⟩
            · rw [hs] at hbad
              cases hbad
            · cases hpe
        · rename_i payload
          split
          · rename_i v hv
            constructor
            · intro h
              exact absurd h (by simp)
            · intro h
              obtain ⟨s', body', heq, hrest⟩ := h ts (Or.inl rfl)
              rw [hw] at heq
              cases heq
              rcases hrest with hbad | ⟨payload', e', hpe, hverr⟩
              · rw [hs] at hbad
                cases hbad
              · cases hpe
                rw [hv] at hverr
                cases hverr
          · rename_i e hv
            rw [ih]
            constructor
            · intro h t ht
              rcases ht with rfl | ht
              · exact ⟨s, Except.ok payload, hw, Or.inr ⟨payload, e, rfl, hv⟩⟩
              · exact h t ht
            · intro h t ht
              exact h t (Or.inr ht)
      · rename_i hs
        rw [ih]
        constructor
        · intro h t ht
          rcases ht with rfl | ht
          · exact ⟨s, body, hw, Or.inl (by simpa using hs)⟩
          · exact h t ht
        · intro h t ht
          exact h t (Or.inr ht)

end ZkSync
